import Mathlib

/-!
Verification of the contact engine in `app/tools/contact_tools.py`
(record normalization, quality scoring, state derivation, filtering,
aggregation and keyword-relevance ranking), as a shallow embedding.

Raw CSV records (the output of `csv.DictReader`) are modelled as
association lists from string column names to string values; a missing
column is an absent key, and `record.get(k)` is an `Option`-valued
lookup.  Python code that can raise (`int(...)` on a non-numeric string,
comparisons between incompatible values, `str.join` over `None`) is
modelled with `Except String`.
-/

/-- Raw record: string-keyed, string-valued mapping, as produced by
`csv.DictReader` for a complete row. -/
def Record := List (String × String)

/-- Python `record.get(k)`: first binding of the key, if any. -/
def recGet (r : Record) (k : String) : Option String :=
  (r.find? (fun p => p.1 == k)).map (fun p => p.2)

/-- Python `record.get(k, d)` with a string default. -/
def recGetD (r : Record) (k : String) (d : String) : String :=
  (recGet r k).getD d

/-- Python truthiness of `record.get(k)`: `None` and `""` are falsy,
every other string (whitespace-only included) is truthy. -/
def truthyS : Option String → Bool
  | none => false
  | some s => s != ""

/-- Truthiness of the field named `k` of a record (`if record.get(k):`). -/
def present (r : Record) (k : String) : Bool :=
  truthyS (recGet r k)

/-- Test `record.get(k) == v` for a string literal `v` (Python `==` with
`None` on the left is `False`). -/
def fieldEquals (r : Record) (k : String) (v : String) : Bool :=
  recGet r k == some v

/-- Quality score of a raw record, translated from
`calculate_quality_score`: a sum of weighted Python-truthiness checks
plus two exact string-equality checks. -/
def calculate_quality_score (r : Record) : Nat :=
  (if present r "First Name" then 5 else 0) +
  (if present r "Last Name" then 5 else 0) +
  (if present r "Email" then 10 else 0) +
  (if present r "Title" then 10 else 0) +
  (if present r "Company Name" then 10 else 0) +
  (if present r "Person Linkedin Url" then 10 else 0) +
  (if present r "Mobile Phone" || present r "Work Direct Phone" then 10 else 0) +
  (if present r "Keywords" then 5 else 0) +
  (if present r "Technologies" then 5 else 0) +
  (if present r "Industry" then 5 else 0) +
  (if present r "# Employees" then 5 else 0) +
  (if fieldEquals r "Email Status" "Verified" then 10 else 0) +
  (if fieldEquals r "Primary Email Catch-all Status" "Not Catch-all" then 10 else 0)

/-- Interaction-flag parse: `record.get(k) in ['true', 'True', True]`;
with string-valued records only the two string forms can match. -/
def flagTrue (o : Option String) : Bool :=
  o == some "true" || o == some "True"

/-- Contact state of a raw record, translated from
`determine_contact_state`: first-match priority over the interaction
flags, then email-based classification, then INCOMPLETE. -/
def determine_contact_state (r : Record) : String :=
  if flagTrue (recGet r "Replied") then "REPLIED"
  else if flagTrue (recGet r "Demoed") then "DEMOED"
  else if flagTrue (recGet r "Email Bounced") then "BOUNCED"
  else if flagTrue (recGet r "Email Open") then "OPENED"
  else if flagTrue (recGet r "Email Sent") then "SENT"
  else if truthyS (recGet r "Email") then
    (if recGetD r "Stage" "" == "Interested" then "INTERESTED_NOT_CONTACTED"
     else "NOT_CONTACTED")
  else "INCOMPLETE"

/-- Substring test on character lists (`needle in hay` for Python
strings); the empty needle is contained in everything. -/
def listContainsAux : List Char → List Char → Bool
  | needle, [] => needle.isEmpty
  | needle, h :: t => needle.isPrefixOf (h :: t) || listContainsAux needle t

/-- Python substring containment `needle in hay`. -/
def strContains (hay needle : String) : Bool :=
  listContainsAux needle.toList hay.toList

/-- Lowercasing (`str.lower`), character by character. -/
def toLowerStr (s : String) : String :=
  String.mk (s.toList.map Char.toLower)

/-- Whitespace trim on both ends (`str.strip()` with no argument). -/
def trimStr (s : String) : String :=
  String.mk (((s.toList.dropWhile Char.isWhitespace).reverse.dropWhile Char.isWhitespace).reverse)

/-- Split at every comma; a trailing accumulator carries the current
chunk in reverse. `"".split(',') = ['']`. -/
def splitCommaAux : List Char → List Char → List String
  | [], acc => [String.mk acc.reverse]
  | c :: rest, acc =>
    if c == ',' then String.mk acc.reverse :: splitCommaAux rest []
    else splitCommaAux rest (c :: acc)

/-- Python `s.split(',')`. -/
def splitComma (s : String) : List String :=
  splitCommaAux s.toList []

/-- Code-point lexicographic `<` on character lists (Python string
comparison). -/
def listLtChar : List Char → List Char → Bool
  | [], [] => false
  | [], _ :: _ => true
  | _ :: _, [] => false
  | x :: xs, y :: ys => if x == y then listLtChar xs ys else decide (x.toNat < y.toNat)

/-- Python `a < b` on strings. -/
def strLtB (a b : String) : Bool :=
  listLtChar a.toList b.toList

/-- Executive-keyword vocabulary from `is_executive_contact`. -/
def executive_keywords : List String :=
  ["suite", "founder", "ceo", "cto", "cfo", "coo", "chief"]

/-- Executive check, translated from `is_executive_contact`: any
executive keyword is a substring of the lowercased seniority or title. -/
def is_executive_contact (r : Record) : Bool :=
  let seniority := toLowerStr (recGetD r "Seniority" "")
  let title := toLowerStr (recGetD r "Title" "")
  executive_keywords.any (fun k => strContains seniority k || strContains title k)

/-- Comma-split, trim, drop empties: `[t.strip() for t in s.split(',') if t.strip()]`. -/
def parseListField (s : String) : List String :=
  ((splitComma s).map trimStr).filter (fun t => t != "")

/-- Model of Python `int(s)` on a string: optional surrounding
whitespace, an optional sign, then at least one ASCII digit; any other
shape raises `ValueError`, modelled as `none`.  (Python additionally
accepts underscore digit-group separators and non-ASCII digits; those
exotic forms are not modelled.) -/
def pyInt? (s : String) : Option Int :=
  let t := ((s.toList.dropWhile Char.isWhitespace).reverse.dropWhile Char.isWhitespace).reverse
  let core : Option (Bool × List Char) :=
    match t with
    | [] => none
    | c :: rest =>
      if c == '-' then some (true, rest)
      else if c == '+' then some (false, rest)
      else some (false, c :: rest)
  match core with
  | none => none
  | some (neg, digits) =>
    if digits.isEmpty || !(digits.all Char.isDigit) then none
    else
      let n : Nat := digits.foldl (fun a c => 10 * a + (c.toNat - 48)) 0
      some (if neg then -(n : Int) else (n : Int))

/-- Company-size bucket from the employee count, translated from the
if/elif chain in `transform_apollo_to_contact`. -/
def sizeBucket (n : Int) : String :=
  if n ≤ 10 then "1-10 (Micro)"
  else if n ≤ 50 then "11-50 (Small)"
  else if n ≤ 200 then "51-200 (Medium)"
  else if n ≤ 500 then "201-500 (Large)"
  else "500+ (Enterprise)"

/-- Normalized contact entity: the dictionary built by
`transform_apollo_to_contact`, with `None`-able values as `Option`. -/
structure Contact where
  id : String
  firstName : Option String
  lastName : Option String
  email : String
  emailStatus : String
  title : Option String
  seniority : Option String
  linkedinUrl : Option String
  country : Option String
  city : Option String
  companyName : Option String
  companyWebsite : Option String
  companySize : Int
  companySizeBucket : String
  industry : Option String
  technologies : List String
  keywords : List String
  stage : String
  contactState : String
  qualityScore : Nat
  isExecutive : Bool
deriving DecidableEq, Repr

/-- Employee-count string actually passed to `int(...)`:
`record.get('# Employees', '0') or '0'`. -/
def empField (r : Record) : String :=
  let e := recGetD r "# Employees" "0"
  if e == "" then "0" else e

/-- Record normalizer, translated from `transform_apollo_to_contact`.
Returns `none` when `int(record.get('# Employees', '0') or '0')` raises
`ValueError`; otherwise exactly one contact. -/
def transform_apollo_to_contact (r : Record) : Option Contact :=
  match pyInt? (empField r) with
  | none => none
  | some companySize =>
    some
      { id := recGetD r "Apollo Contact Id" ""
        firstName := recGet r "First Name"
        lastName := recGet r "Last Name"
        email := recGetD r "Email" ""
        emailStatus := recGetD r "Email Status" "User Managed"
        title := recGet r "Title"
        seniority := recGet r "Seniority"
        linkedinUrl := recGet r "Person Linkedin Url"
        country := recGet r "Country"
        city := recGet r "City"
        companyName := recGet r "Company Name"
        companyWebsite := recGet r "Website"
        companySize := companySize
        companySizeBucket := sizeBucket companySize
        industry := recGet r "Industry"
        technologies := parseListField (recGetD r "Technologies" "")
        keywords := parseListField (recGetD r "Keywords" "")
        stage := recGetD r "Stage" "Cold"
        contactState := determine_contact_state r
        qualityScore := calculate_quality_score r
        isExecutive := is_executive_contact r }


/-- Dynamic value of a contact-dictionary entry, as seen by the generic
clause language: the value types that actually occur in the dictionary
built by `transform_apollo_to_contact`. -/
inductive Value where
  | VNone : Value
  | VStr : String → Value
  | VInt : Int → Value
  | VBool : Bool → Value
  | VList : List String → Value
deriving DecidableEq, Repr

/-- Python truthiness of a dynamic value. -/
def truthyV : Value → Bool
  | .VNone => false
  | .VStr s => s != ""
  | .VInt n => n != 0
  | .VBool b => b
  | .VList l => !l.isEmpty

/-- Single-quote character, for Python list `repr`. -/
def quoteChar : String := String.singleton (Char.ofNat 39)

/-- Python `str(...)` of a dynamic value (`str` of a list of strings is
its `repr`, single-quoted; strings containing quote characters are not
escaped in this model). -/
def pyStr : Value → String
  | .VNone => "None"
  | .VStr s => s
  | .VInt n => toString n
  | .VBool b => if b then "True" else "False"
  | .VList l =>
    "[" ++ String.intercalate ", " (l.map (fun s => quoteChar ++ s ++ quoteChar)) ++ "]"

/-- Python `==` on dynamic values: cross-type comparison is `False`,
except that booleans compare numerically with integers. -/
def pyEq : Value → Value → Bool
  | .VNone, .VNone => true
  | .VStr x, .VStr y => x == y
  | .VInt x, .VInt y => x == y
  | .VBool x, .VBool y => x == y
  | .VBool x, .VInt y => (if x then (1 : Int) else 0) == y
  | .VInt x, .VBool y => x == (if y then (1 : Int) else 0)
  | .VList x, .VList y => x == y
  | _, _ => false

/-- Python lexicographic `>=` on lists of strings. -/
def listGeStr : List String → List String → Bool
  | _, [] => true
  | [], _ :: _ => false
  | x :: xs, y :: ys => if x == y then listGeStr xs ys else strLtB y x

/-- Python `a >= b` on dynamic values: numeric (integers and booleans),
string/string and list/list comparisons succeed; any other pairing
raises `TypeError`. -/
def pyGe : Value → Value → Except String Bool
  | .VInt x, .VInt y => .ok (decide (y ≤ x))
  | .VBool x, .VInt y => .ok (decide (y ≤ if x then (1 : Int) else 0))
  | .VInt x, .VBool y => .ok (decide ((if y then (1 : Int) else 0) ≤ x))
  | .VBool x, .VBool y => .ok (decide ((if y then (1 : Int) else 0) ≤ if x then 1 else 0))
  | .VStr x, .VStr y => .ok (!(strLtB x y))
  | .VList x, .VList y => .ok (listGeStr x y)
  | _, _ => .error "TypeError"

/-- Lift an optional string field (a `None`-able dictionary entry) to a
dynamic value. -/
def optStr : Option String → Value
  | none => .VNone
  | some s => .VStr s

/-- Dynamic field lookup on the contact dictionary: `some` exactly for
the keys of the dictionary built by `transform_apollo_to_contact`,
`none` for an absent key. -/
def getField (c : Contact) (k : String) : Option Value :=
  if k == "id" then some (.VStr c.id)
  else if k == "firstName" then some (optStr c.firstName)
  else if k == "lastName" then some (optStr c.lastName)
  else if k == "email" then some (.VStr c.email)
  else if k == "emailStatus" then some (.VStr c.emailStatus)
  else if k == "title" then some (optStr c.title)
  else if k == "seniority" then some (optStr c.seniority)
  else if k == "linkedinUrl" then some (optStr c.linkedinUrl)
  else if k == "country" then some (optStr c.country)
  else if k == "city" then some (optStr c.city)
  else if k == "companyName" then some (optStr c.companyName)
  else if k == "companyWebsite" then some (optStr c.companyWebsite)
  else if k == "companySize" then some (.VInt c.companySize)
  else if k == "companySizeBucket" then some (.VStr c.companySizeBucket)
  else if k == "industry" then some (optStr c.industry)
  else if k == "technologies" then some (.VList c.technologies)
  else if k == "keywords" then some (.VList c.keywords)
  else if k == "stage" then some (.VStr c.stage)
  else if k == "contactState" then some (.VStr c.contactState)
  else if k == "qualityScore" then some (.VInt (c.qualityScore : Int))
  else if k == "isExecutive" then some (.VBool c.isExecutive)
  else none

/-- Generic filter clause `{field, operator, value}`; `clause.get(k)`
may be absent, hence the `Option`s. -/
structure Clause where
  field : Option String
  operator : Option String
  value : Value
deriving DecidableEq, Repr

/-- Python truthiness of `clause.get('field')`. -/
def fieldTruthy (f : Option String) : Bool :=
  match f with
  | some s => s != ""
  | none => false

/-- Fallible list filter: evaluates the predicate left to right,
propagating the first raised error (a Python list comprehension whose
condition may raise). -/
def filterE (p : Contact → Except String Bool) : List Contact → Except String (List Contact)
  | [] => .ok []
  | c :: cs =>
    match p c with
    | .error e => .error e
    | .ok b =>
      match filterE p cs with
      | .error e => .error e
      | .ok rest => .ok (if b then c :: rest else rest)

/-- Condition of the `contains` operator on one contact:
`field in c and c[field] and value.lower() in str(c[field]).lower()`;
a non-string clause value raises `AttributeError` (no `.lower`), but
only when the first two conjuncts hold. -/
def containsTest (f : String) (v : Value) (c : Contact) : Except String Bool :=
  match getField c f with
  | none => .ok false
  | some fv =>
    if truthyV fv then
      match v with
      | .VStr s => .ok (strContains (toLowerStr (pyStr fv)) (toLowerStr s))
      | _ => .error "AttributeError"
    else .ok false

/-- Condition of the `gte` operator on one contact:
`c.get(field, 0) >= value`. -/
def gteTest (f : String) (v : Value) (c : Contact) : Except String Bool :=
  pyGe ((getField c f).getD (.VInt 0)) v

/-- One pass of the generic clause loop body over the current contact
list, translated from the `where_clauses` loop in
`query_contacts_tool`; an unrecognized operator (or a falsy field name)
leaves the list untouched. -/
def applyClause (cl : Clause) (cs : List Contact) : Except String (List Contact) :=
  if cl.operator == some "contains" && fieldTruthy cl.field then
    filterE (containsTest (cl.field.getD "") cl.value) cs
  else if cl.operator == some "equals" && fieldTruthy cl.field then
    .ok (cs.filter (fun c => pyEq ((getField c (cl.field.getD "")).getD .VNone) cl.value))
  else if cl.operator == some "gte" && fieldTruthy cl.field then
    filterE (gteTest (cl.field.getD "") cl.value) cs
  else .ok cs

/-- Sequential application of the generic clauses, in list order. -/
def applyClauses : List Clause → List Contact → Except String (List Contact)
  | [], cs => .ok cs
  | cl :: rest, cs =>
    match applyClause cl cs with
    | .error e => .error e
    | .ok cs2 => applyClauses rest cs2

/-- Typed-filter arguments of `query_contacts_tool`. -/
structure QueryParams where
  whereClauses : List Clause
  minQualityScore : Option Int
  isExecutive : Option Bool
  country : Option String
  industry : Option String
  contactState : Option String
  limit : Nat
deriving Repr

/-- The five typed filters of `query_contacts_tool`, applied in source
order; the two `is not None` filters fire on any `some`, the three
string filters only on a truthy (non-empty) string. -/
def applyTypedFilters (p : QueryParams) (cs : List Contact) : List Contact :=
  let cs1 := match p.minQualityScore with
    | some m => cs.filter (fun c => decide (m ≤ (c.qualityScore : Int)))
    | none => cs
  let cs2 := match p.isExecutive with
    | some b => cs1.filter (fun c => c.isExecutive == b)
    | none => cs1
  let cs3 := if fieldTruthy p.country then
      cs2.filter (fun c => c.country == some (p.country.getD ""))
    else cs2
  let cs4 := if fieldTruthy p.industry then
      cs3.filter (fun c => c.industry == some (p.industry.getD ""))
    else cs3
  if fieldTruthy p.contactState then
    cs4.filter (fun c => c.contactState == p.contactState.getD "")
  else cs4

/-- Minimal projection of a contact returned by the query surface. -/
structure MinContact where
  id : String
  firstName : Option String
  lastName : Option String
  email : String
  title : Option String
  companyName : Option String
  industry : Option String
  country : Option String
  qualityScore : Nat
  isExecutive : Bool
  contactState : String
deriving DecidableEq, Repr

/-- Projection to the minimal field subset. -/
def minimalContact (c : Contact) : MinContact :=
  { id := c.id
    firstName := c.firstName
    lastName := c.lastName
    email := c.email
    title := c.title
    companyName := c.companyName
    industry := c.industry
    country := c.country
    qualityScore := c.qualityScore
    isExecutive := c.isExecutive
    contactState := c.contactState }

/-- Result shape of `query_contacts_tool` (the `filters_applied` echo of
the inputs is omitted). -/
structure QueryResult where
  contacts : List MinContact
  total : Nat
  returned : Nat
deriving DecidableEq, Repr

/-- The filtered-but-untruncated contact sequence: typed filters then
generic clauses, before the `[:limit]` slice. -/
def filteredUntruncated (p : QueryParams) (cs : List Contact) : Except String (List Contact) :=
  applyClauses p.whereClauses (applyTypedFilters p cs)

/-- Filter Engine, translated from `query_contacts_tool` (the contact
set is a parameter standing for the loaded CSV). -/
def query_contacts_tool (p : QueryParams) (cs : List Contact) : Except String QueryResult :=
  match filteredUntruncated p cs with
  | .error e => .error e
  | .ok filtered =>
    let limited := filtered.take p.limit
    .ok { contacts := limited.map minimalContact
          total := filtered.length
          returned := limited.length }

/-- Insertion-ordered counter increment, modelling
`d[k] = d.get(k, 0) + 1` on a Python dict: bump the first binding of
the key, or append a fresh binding with count 1. -/
def incrCount : List (String × Nat) → String → List (String × Nat)
  | [], k => [(k, 1)]
  | (k2, v) :: rest, k =>
    if k2 == k then (k2, v + 1) :: rest else (k2, v) :: incrCount rest k

/-- Counter built by one pass over a list, keyed by `key`. -/
def countByKey (key : α → String) (xs : List α) : List (String × Nat) :=
  xs.foldl (fun m x => incrCount m (key x)) []

/-- Sum of the counts of a counter. -/
def sumCounts (m : List (String × Nat)) : Nat :=
  (m.map Prod.snd).sum

/-- Count stored under a key (0 if absent), i.e. `d.get(k, 0)`. -/
def lookupCount (m : List (String × Nat)) (k : String) : Nat :=
  match m.find? (fun p => p.1 == k) with
  | some p => p.2
  | none => 0

/-- Half-to-even integer rounding, as Python `round` on an exact value. -/
def roundHalfEven (x : ℚ) : ℤ :=
  let f := ⌊x⌋
  let frac := x - (f : ℚ)
  if frac < 1 / 2 then f
  else if 1 / 2 < frac then f + 1
  else if f % 2 = 0 then f else f + 1

/-- Python `round(x, 1)`, on an exact rational model of the value. -/
def pyRound1 (x : ℚ) : ℚ :=
  (roundHalfEven (10 * x) : ℚ) / 10

/-- Group-by key of a contact for the stats breakdown:
`str(c.get(group_by, 'Unknown'))`. -/
def breakdownKey (c : Contact) (g : String) : String :=
  match getField c g with
  | some v => pyStr v
  | none => "Unknown"

/-- Result shape of `get_contact_stats_tool`. -/
structure StatsResult where
  total : Nat
  byState : List (String × Nat)
  byStage : List (String × Nat)
  executives : Nat
  verifiedNotContacted : Nat
  highQualityNotContacted : Nat
  avgQualityScore : ℚ
  breakdown : Option (List (String × Nat))
deriving DecidableEq, Repr

/-- Stats Aggregator, translated from `get_contact_stats_tool` (the
contact set is a parameter standing for the loaded CSV; `contactState`
and `stage` keys are always present on a contact, so their dict-lookup
defaults are unreachable). -/
def get_contact_stats_tool (groupBy : Option String) (cs : List Contact) : StatsResult :=
  { total := cs.length
    byState := countByKey Contact.contactState cs
    byStage := countByKey Contact.stage cs
    executives := (cs.filter (fun c => c.isExecutive)).length
    verifiedNotContacted :=
      (cs.filter (fun c => c.emailStatus == "Verified" && c.contactState == "NOT_CONTACTED")).length
    highQualityNotContacted :=
      (cs.filter (fun c => decide (70 ≤ c.qualityScore) &&
        (c.contactState == "NOT_CONTACTED" || c.contactState == "INTERESTED_NOT_CONTACTED"))).length
    avgQualityScore :=
      pyRound1 (if cs.isEmpty then 0
        else ((cs.map (fun c => (c.qualityScore : ℚ))).sum) / (cs.length : ℚ))
    breakdown :=
      match groupBy with
      | some g => if g != "" then some (countByKey (fun c => breakdownKey c g) cs) else none
      | none => none }

/-- Fixed vocabulary of the keyword-relevance ranker. -/
def vsTerms : List String :=
  ["fintech", "payment", "saas", "travel", "cfo", "ceo", "executive", "colombia", "mexico"]

/-- Keyword extraction: vocabulary terms contained in the lowercased
query. -/
def extractKeywords (query : String) : List String :=
  vsTerms.filter (fun t => strContains (toLowerStr query) t)

/-- The lowercased text blob of one contact:
`' '.join([c.get('title',''), c.get('companyName',''), c.get('industry',''), ' '.join(keywords), ' '.join(technologies)]).lower()`.
The three optional fields are dict keys that are always present, so the
`.get` defaults never apply and a `None` value reaches `str.join`,
raising `TypeError`. -/
def contactText (c : Contact) : Except String String :=
  match c.title, c.companyName, c.industry with
  | some t, some cn, some ind =>
    .ok (toLowerStr (String.intercalate " "
      [t, cn, ind, String.intercalate " " c.keywords, String.intercalate " " c.technologies]))
  | _, _, _ => .error "TypeError"

/-- Keyword-overlap score of a text blob: each extracted keyword
contributes at most 1. -/
def scoreText (keywords : List String) (text : String) : Nat :=
  keywords.countP (fun k => strContains text k)

/-- Scoring loop of `vector_search_contacts_tool`: build each contact's
text blob (left to right, propagating a raised `TypeError`), score it,
and keep only contacts with a positive score, in source order. -/
def scoredContacts (keywords : List String) : List Contact → Except String (List (Contact × Nat))
  | [] => .ok []
  | c :: cs =>
    match contactText c with
    | .error e => .error e
    | .ok text =>
      let s := scoreText keywords text
      match scoredContacts keywords cs with
      | .error e => .error e
      | .ok rest => .ok (if 0 < s then (c, s) :: rest else rest)

/-- Comparison used by the ranker sort: descending by score
(`reverse=True` on the score key). -/
def vsLe (a b : Contact × Nat) : Bool :=
  decide (b.2 ≤ a.2)

/-- Descending stable sort by score:
`scored_contacts.sort(key=lambda x: x[1], reverse=True)`. -/
def vsSort (l : List (Contact × Nat)) : List (Contact × Nat) :=
  l.mergeSort vsLe

/-- Post-score keep-condition of the ranker's filter loop (the three
`continue` tests, negated): note the quality and country filters fire
only on truthy arguments, the executive filter on any `some`. -/
def vsKeep (minQ : Option Int) (isEx : Option Bool) (country : Option String) (c : Contact) : Bool :=
  (match minQ with
   | some m => !(m != 0 && decide ((c.qualityScore : Int) < m))
   | none => true) &&
  (match isEx with
   | some b => c.isExecutive == b
   | none => true) &&
  (match country with
   | some s => !(s != "" && c.country != some s)
   | none => true)

/-- Normalized relevance score:
`score / len(keywords) if keywords else 0`. -/
def relScore (keywords : List String) (s : Nat) : ℚ :=
  if keywords.isEmpty then 0 else (s : ℚ) / (keywords.length : ℚ)

/-- Result shape of `vector_search_contacts_tool`: each returned entry
is the minimal projection paired with its `relevanceScore` (the fixed
`note` string is omitted). -/
structure VSResult where
  contacts : List (MinContact × ℚ)
  totalMatched : Nat
  searchQuery : String
  extractedKeywords : List String
deriving DecidableEq, Repr

/-- Sort-filter-truncate stage of the ranker: stable descending sort by
score, the three post-score filters, then the `[:top_k]` slice. -/
def vsLimited (top_k : Nat) (minQ : Option Int) (isEx : Option Bool)
    (country : Option String) (scored : List (Contact × Nat)) : List (Contact × Nat) :=
  (((vsSort scored).filter (fun p => vsKeep minQ isEx country p.1)).take top_k)

/-- Relevance Ranker, translated from `vector_search_contacts_tool`
(the contact set is a parameter standing for the loaded CSV). -/
def vector_search_contacts_tool (query : String) (top_k : Nat)
    (minQ : Option Int) (isEx : Option Bool) (country : Option String)
    (cs : List Contact) : Except String VSResult :=
  match scoredContacts (extractKeywords query) cs with
  | .error e => .error e
  | .ok scored =>
    .ok { contacts := (vsLimited top_k minQ isEx country scored).map
            (fun p => (minimalContact p.1, relScore (extractKeywords query) p.2))
          totalMatched := (vsLimited top_k minQ isEx country scored).length
          searchQuery := query
          extractedKeywords := extractKeywords query }

/-- Record with every key removed except none: the contact built from
the empty raw record (all defaults). -/
def emptyContact : Contact :=
  { id := ""
    firstName := none
    lastName := none
    email := ""
    emailStatus := "User Managed"
    title := none
    seniority := none
    linkedinUrl := none
    country := none
    city := none
    companyName := none
    companyWebsite := none
    companySize := 0
    companySizeBucket := "1-10 (Micro)"
    industry := none
    technologies := []
    keywords := []
    stage := "Cold"
    contactState := "INCOMPLETE"
    qualityScore := 0
    isExecutive := false }


/-- Record with all bindings of key `k` removed (absent field). -/
def eraseKey (r : Record) (k : String) : Record :=
  r.filter (fun p => p.1 != k)

lemma recGet_cons (q : String × String) (l : List (String × String)) (k2 : String) :
    recGet (q :: l) k2 = if q.1 = k2 then some q.2 else recGet l k2 := by
  by_cases h : q.1 = k2
  · have hb : (q.1 == k2) = true := by simp [h]
    simp [recGet, List.find?_cons, hb, h]
  · have hb : (q.1 == k2) = false := by simp [h]
    simp [recGet, List.find?_cons, hb, h]

lemma recGet_eraseKey (r : Record) (k k2 : String) :
    recGet (eraseKey r k) k2 = if k2 = k then none else recGet r k2 := by
  unfold eraseKey
  induction r with
  | nil =>
    by_cases h : k2 = k <;> simp [recGet, h]
  | cons p rest ih =>
    rw [List.filter_cons]
    by_cases hpk : p.1 = k
    · rw [if_neg (by simp [hpk]), ih]
      by_cases h2 : k2 = k
      · rw [if_pos h2, if_pos h2]
      · rw [if_neg h2, if_neg h2, recGet_cons,
          if_neg (by intro hc; apply h2; rw [← hc, hpk])]
    · rw [if_pos (by simp [hpk]), recGet_cons]
      by_cases hpk2 : p.1 = k2
      · rw [if_pos hpk2,
          if_neg (by intro hc; apply hpk; rw [hpk2, hc]),
          recGet_cons, if_pos hpk2]
      · rw [if_neg hpk2, ih]
        by_cases h2 : k2 = k
        · rw [if_pos h2, if_pos h2]
        · rw [if_neg h2, if_neg h2, recGet_cons, if_neg hpk2]

/-- C1 counterexample input: a record whose employee-count field is a
non-empty, non-numeric string. -/
def badEmployeesRecord : Record := [("# Employees", "abc")]

/-- C1: refutation of the totality claim at a concrete input: with
`'# Employees' = "abc"`, `int(...)` raises `ValueError` and the
normalizer produces no contact at all (rather than one with
companySize 0). -/
theorem C1_counterexample :
    transform_apollo_to_contact badEmployeesRecord = none := by decide

/-- C1 (amended): the Record Normalizer produces exactly one contact
whenever the employee-count string (after defaulting a missing or empty
field to "0") parses as an integer, and then companySize is that
integer — in particular a missing or empty '# Employees' field yields
companySize 0; but when the field holds a non-empty unparseable string,
construction fails instead of defaulting to 0. -/
theorem C1_corrected (r : Record) :
    (transform_apollo_to_contact r = none ↔ pyInt? (empField r) = none) ∧
    (∀ n : Int, pyInt? (empField r) = some n →
      (transform_apollo_to_contact r).map Contact.companySize = some n) ∧
    ((recGet r "# Employees" = none ∨ recGet r "# Employees" = some "") →
      (transform_apollo_to_contact r).map Contact.companySize = some 0) := by
  refine ⟨?_, ?_, ?_⟩
  · unfold transform_apollo_to_contact
    cases h : pyInt? (empField r) <;> simp [h]
  · intro n hn
    unfold transform_apollo_to_contact
    rw [hn]
    rfl
  · intro h
    have he : empField r = "0" := by
      unfold empField recGetD
      rcases h with h | h <;> rw [h] <;> rfl
    have hp : pyInt? (empField r) = some 0 := by rw [he]; decide
    unfold transform_apollo_to_contact
    rw [hp]
    rfl

/-- C1 witness: on the empty raw record the normalizer succeeds with
companySize 0. -/
theorem C1_witness :
    (transform_apollo_to_contact []).map Contact.companySize = some 0 :=
  (C1_corrected []).2.2 (Or.inl rfl)

/-- C2: contactState is a strict first-match priority over REPLIED,
DEMOED, BOUNCED, OPENED, SENT, then email-based classification, then
INCOMPLETE; a replied record is REPLIED regardless of the other flags
(in particular replied together with bounced), and a record with no
Email and Stage "Interested" is INCOMPLETE. -/
theorem C2_confirmed (r : Record) :
    (flagTrue (recGet r "Replied") = true → determine_contact_state r = "REPLIED") ∧
    (flagTrue (recGet r "Replied") = false →
      flagTrue (recGet r "Demoed") = true → determine_contact_state r = "DEMOED") ∧
    (flagTrue (recGet r "Replied") = false → flagTrue (recGet r "Demoed") = false →
      flagTrue (recGet r "Email Bounced") = true → determine_contact_state r = "BOUNCED") ∧
    (flagTrue (recGet r "Replied") = false → flagTrue (recGet r "Demoed") = false →
      flagTrue (recGet r "Email Bounced") = false →
      flagTrue (recGet r "Email Open") = true → determine_contact_state r = "OPENED") ∧
    (flagTrue (recGet r "Replied") = false → flagTrue (recGet r "Demoed") = false →
      flagTrue (recGet r "Email Bounced") = false → flagTrue (recGet r "Email Open") = false →
      flagTrue (recGet r "Email Sent") = true → determine_contact_state r = "SENT") ∧
    (flagTrue (recGet r "Replied") = false → flagTrue (recGet r "Demoed") = false →
      flagTrue (recGet r "Email Bounced") = false → flagTrue (recGet r "Email Open") = false →
      flagTrue (recGet r "Email Sent") = false → truthyS (recGet r "Email") = true →
      recGetD r "Stage" "" = "Interested" →
      determine_contact_state r = "INTERESTED_NOT_CONTACTED") ∧
    (flagTrue (recGet r "Replied") = false → flagTrue (recGet r "Demoed") = false →
      flagTrue (recGet r "Email Bounced") = false → flagTrue (recGet r "Email Open") = false →
      flagTrue (recGet r "Email Sent") = false → truthyS (recGet r "Email") = true →
      recGetD r "Stage" "" ≠ "Interested" →
      determine_contact_state r = "NOT_CONTACTED") ∧
    (flagTrue (recGet r "Replied") = false → flagTrue (recGet r "Demoed") = false →
      flagTrue (recGet r "Email Bounced") = false → flagTrue (recGet r "Email Open") = false →
      flagTrue (recGet r "Email Sent") = false → truthyS (recGet r "Email") = false →
      determine_contact_state r = "INCOMPLETE") ∧
    determine_contact_state [("Replied", "true"), ("Email Bounced", "true")] = "REPLIED" ∧
    determine_contact_state [("Stage", "Interested")] = "INCOMPLETE" := by
  refine ⟨?_, ?_, ?_, ?_, ?_, ?_, ?_, ?_, by decide, by decide⟩ <;>
    { intros; simp [determine_contact_state, *] }

/-- C2 witness: a record whose only field is `Replied = "true"` is
REPLIED. -/
theorem C2_witness :
    determine_contact_state [("Replied", "true")] = "REPLIED" :=
  (C2_confirmed [("Replied", "true")]).1 (by decide)

/-- C3: refutation at a concrete input: a record whose First Name is
the single-space string scores 5 (the field counts as present), while
the claim says a whitespace-only field contributes 0 — the record with
no fields at all scores 0. -/
theorem C3_counterexample :
    calculate_quality_score [("First Name", " ")] = 5 ∧
    calculate_quality_score [] = 0 := by decide

/-- C3 (amended): a raw field counts as present for the quality score
exactly when it is a non-empty string (Python truthiness, with no
whitespace stripping): a field whose value is the empty string
contributes 0 points — removing it leaves the score unchanged — but a
whitespace-only value counts as present and contributes its weight. -/
theorem C3_corrected (r : Record) (k : String) (h : recGet r k = some "") :
    calculate_quality_score r = calculate_quality_score (eraseKey r k) := by
  have hp : ∀ k2, present (eraseKey r k) k2 = present r k2 := by
    intro k2
    unfold present
    rw [recGet_eraseKey]
    by_cases h2 : k2 = k
    · rw [if_pos h2, h2, h]; rfl
    · rw [if_neg h2]
  have heq : ∀ v : String, v ≠ "" → ∀ k2,
      fieldEquals (eraseKey r k) k2 v = fieldEquals r k2 v := by
    intro v hv k2
    unfold fieldEquals
    rw [recGet_eraseKey]
    by_cases h2 : k2 = k
    · rw [if_pos h2, h2, h]
      simp [Ne.symm hv]
    · rw [if_neg h2]
  have h1 : fieldEquals (eraseKey r k) "Email Status" "Verified" =
      fieldEquals r "Email Status" "Verified" := heq _ (by decide) _
  have h2 : fieldEquals (eraseKey r k) "Primary Email Catch-all Status" "Not Catch-all" =
      fieldEquals r "Primary Email Catch-all Status" "Not Catch-all" := heq _ (by decide) _
  simp only [calculate_quality_score, hp, h1, h2]

/-- C3 witness: removing an empty-string Email field leaves the score
unchanged. -/
theorem C3_witness :
    calculate_quality_score [("Email", "")] =
      calculate_quality_score (eraseKey [("Email", "")] "Email") :=
  C3_corrected [("Email", "")] "Email" rfl

/-- C4: the quality score is at most 100 (and at least 0, being a
natural number), the constructed contact carries exactly that score,
and the computation is deterministic: equal records get equal scores. -/
theorem C4_confirmed (r : Record) :
    calculate_quality_score r ≤ 100 ∧
    (∀ c, transform_apollo_to_contact r = some c →
      c.qualityScore = calculate_quality_score r) ∧
    (∀ r2 : Record, r = r2 → calculate_quality_score r = calculate_quality_score r2) := by
  have H : ∀ (b : Bool) (w : Nat), (if b then w else 0) ≤ w := by
    intro b w; cases b <;> simp
  refine ⟨?_, ?_, ?_⟩
  · unfold calculate_quality_score
    have h1 := H (present r "First Name") 5
    have h2 := H (present r "Last Name") 5
    have h3 := H (present r "Email") 10
    have h4 := H (present r "Title") 10
    have h5 := H (present r "Company Name") 10
    have h6 := H (present r "Person Linkedin Url") 10
    have h7 := H (present r "Mobile Phone" || present r "Work Direct Phone") 10
    have h8 := H (present r "Keywords") 5
    have h9 := H (present r "Technologies") 5
    have h10 := H (present r "Industry") 5
    have h11 := H (present r "# Employees") 5
    have h12 := H (fieldEquals r "Email Status" "Verified") 10
    have h13 := H (fieldEquals r "Primary Email Catch-all Status" "Not Catch-all") 10
    omega
  · intro c hc
    unfold transform_apollo_to_contact at hc
    rcases hpi : pyInt? (empField r) with _ | n
    · rw [hpi] at hc; exact absurd hc (by simp)
    · rw [hpi] at hc
      injection hc with hcc
      subst hcc
      rfl
  · intro r2 hr; rw [hr]

/-- C4 witness: the empty record scores 0 ≤ 100, its contact carries
that score, and the score is deterministic. -/
theorem C4_witness :
    calculate_quality_score [] ≤ 100 ∧
    emptyContact.qualityScore = calculate_quality_score [] ∧
    calculate_quality_score [] = calculate_quality_score [] :=
  ⟨(C4_confirmed []).1, (C4_confirmed []).2.1 emptyContact (by decide),
    (C4_confirmed []).2.2 [] rfl⟩

/-- C5: the size bucket is a total, non-overlapping partition of
non-negative employee counts into the 5 ordered buckets, inclusive on
the lower bucket: each bucket name characterizes exactly its range, the
function always lands in one of the 5 names, and the boundary sizes
10/50/200/500 resolve down while 11/51/201/501 resolve up. -/
theorem C5_confirmed (n : Int) :
    (0 ≤ n →
      ((sizeBucket n = "1-10 (Micro)" ↔ n ≤ 10) ∧
       (sizeBucket n = "11-50 (Small)" ↔ 11 ≤ n ∧ n ≤ 50) ∧
       (sizeBucket n = "51-200 (Medium)" ↔ 51 ≤ n ∧ n ≤ 200) ∧
       (sizeBucket n = "201-500 (Large)" ↔ 201 ≤ n ∧ n ≤ 500) ∧
       (sizeBucket n = "500+ (Enterprise)" ↔ 501 ≤ n))) ∧
    sizeBucket n ∈ ["1-10 (Micro)", "11-50 (Small)", "51-200 (Medium)",
      "201-500 (Large)", "500+ (Enterprise)"] ∧
    (sizeBucket 10 = "1-10 (Micro)" ∧ sizeBucket 50 = "11-50 (Small)" ∧
     sizeBucket 200 = "51-200 (Medium)" ∧ sizeBucket 500 = "201-500 (Large)") ∧
    (sizeBucket 11 = "11-50 (Small)" ∧ sizeBucket 51 = "51-200 (Medium)" ∧
     sizeBucket 201 = "201-500 (Large)" ∧ sizeBucket 501 = "500+ (Enterprise)") := by
  refine ⟨?_, ?_, by decide, by decide⟩
  · intro hn
    unfold sizeBucket
    split_ifs with h1 h2 h3 h4 <;>
      refine ⟨⟨fun hx => ?_, fun hx => ?_⟩, ⟨fun hx => ?_, fun hx => ?_⟩,
        ⟨fun hx => ?_, fun hx => ?_⟩, ⟨fun hx => ?_, fun hx => ?_⟩,
        ⟨fun hx => ?_, fun hx => ?_⟩⟩ <;>
      first
        | rfl
        | omega
        | exact absurd hx (by decide)
  · unfold sizeBucket
    split_ifs <;> decide

/-- C5 witness: at the boundary size 10 the bucket characterization
applies: size 10 is Micro exactly because 10 ≤ 10. -/
theorem C5_witness :
    sizeBucket 10 = "1-10 (Micro)" ↔ (10 : Int) ≤ 10 :=
  ((C5_confirmed 10).1 (by decide)).1

/-- Query with no clauses and no typed filters, limit 50 (the default
arguments of `query_contacts_tool`). -/
def emptyQuery : QueryParams :=
  { whereClauses := []
    minQualityScore := none
    isExecutive := none
    country := none
    industry := none
    contactState := none
    limit := 50 }

/-- C6: whenever the Filter Engine returns, `total` is the length of
the filtered-but-untruncated sequence, the matched contacts are the
projection of its prefix of length `min(limit, total)`, and hence
`total ≥ len(matched)`. -/
theorem C6_confirmed (p : QueryParams) (cs : List Contact)
    (filtered : List Contact) (res : QueryResult)
    (hf : filteredUntruncated p cs = .ok filtered)
    (h : query_contacts_tool p cs = .ok res) :
    res.total = filtered.length ∧
    res.contacts = (filtered.take p.limit).map minimalContact ∧
    res.contacts.length = min p.limit res.total ∧
    res.contacts.length ≤ res.total := by
  unfold query_contacts_tool at h
  rw [hf] at h
  injection h with hres
  subst hres
  refine ⟨rfl, rfl, ?_, ?_⟩
  · simp [List.length_map, List.length_take]
  · simp only [List.length_map, List.length_take]
    omega

/-- C6 witness: the empty query over the empty contact set returns the
empty prefix with total 0. -/
theorem C6_witness :
    (QueryResult.mk [] 0 0).total = ([] : List Contact).length ∧
    (QueryResult.mk [] 0 0).contacts =
      (([] : List Contact).take emptyQuery.limit).map minimalContact ∧
    (QueryResult.mk [] 0 0).contacts.length =
      min emptyQuery.limit (QueryResult.mk [] 0 0).total ∧
    (QueryResult.mk [] 0 0).contacts.length ≤ (QueryResult.mk [] 0 0).total :=
  C6_confirmed emptyQuery [] [] (QueryResult.mk [] 0 0) rfl rfl

lemma applyClause_unknown (cl : Clause) (h1 : cl.operator ≠ some "contains")
    (h2 : cl.operator ≠ some "equals") (h3 : cl.operator ≠ some "gte")
    (cs : List Contact) : applyClause cl cs = .ok cs := by
  simp [applyClause, h1, h2, h3]

lemma applyClauses_middle (cl : Clause) (h1 : cl.operator ≠ some "contains")
    (h2 : cl.operator ≠ some "equals") (h3 : cl.operator ≠ some "gte")
    (l1 l2 : List Clause) (cs : List Contact) :
    applyClauses (l1 ++ cl :: l2) cs = applyClauses (l1 ++ l2) cs := by
  induction l1 generalizing cs with
  | nil =>
    show applyClauses (cl :: l2) cs = applyClauses l2 cs
    show (match applyClause cl cs with
      | Except.error e => Except.error e
      | Except.ok cs2 => applyClauses l2 cs2) = applyClauses l2 cs
    rw [applyClause_unknown cl h1 h2 h3]
  | cons c rest ih =>
    show applyClauses (c :: (rest ++ cl :: l2)) cs = applyClauses (c :: (rest ++ l2)) cs
    unfold applyClauses
    cases applyClause c cs with
    | error e => rfl
    | ok cs2 => exact ih cs2

/-- C7: a generic clause whose operator is not one of contains, equals,
gte has no effect: inserting it anywhere in the clause list leaves the
whole query result (matched contacts, total, and error behaviour)
unchanged — it never raises. -/
theorem C7_confirmed (cl : Clause) (h1 : cl.operator ≠ some "contains")
    (h2 : cl.operator ≠ some "equals") (h3 : cl.operator ≠ some "gte")
    (p : QueryParams) (l1 l2 : List Clause) (cs : List Contact) :
    query_contacts_tool { p with whereClauses := l1 ++ cl :: l2 } cs =
      query_contacts_tool { p with whereClauses := l1 ++ l2 } cs := by
  have hf : filteredUntruncated { p with whereClauses := l1 ++ cl :: l2 } cs =
      filteredUntruncated { p with whereClauses := l1 ++ l2 } cs := by
    unfold filteredUntruncated
    exact applyClauses_middle cl h1 h2 h3 l1 l2 _
  unfold query_contacts_tool
  rw [hf]

/-- Concrete clause with an operator the Filter Engine does not know. -/
def unknownClause : Clause :=
  { field := some "industry", operator := some "startswith", value := .VStr "F" }

/-- C7 witness: a single `startswith` clause is a no-op on the empty
query. -/
theorem C7_witness :
    query_contacts_tool { emptyQuery with whereClauses := [unknownClause] } [] =
      query_contacts_tool { emptyQuery with whereClauses := [] } [] :=
  C7_confirmed unknownClause (by decide) (by decide) (by decide) emptyQuery [] [] []

lemma lookupCount_cons (q : String × Nat) (l : List (String × Nat)) (k : String) :
    lookupCount (q :: l) k = if q.1 = k then q.2 else lookupCount l k := by
  by_cases h : q.1 = k
  · have hb : (q.1 == k) = true := by simp [h]
    simp [lookupCount, List.find?_cons, hb, h]
  · have hb : (q.1 == k) = false := by simp [h]
    simp [lookupCount, List.find?_cons, hb, h]

lemma sumCounts_incr (m : List (String × Nat)) (k : String) :
    sumCounts (incrCount m k) = sumCounts m + 1 := by
  induction m with
  | nil => rfl
  | cons p rest ih =>
    rcases p with ⟨k2, v⟩
    simp only [incrCount]
    split
    · simp [sumCounts]
      omega
    · simp only [sumCounts, List.map_cons, List.sum_cons] at ih ⊢
      omega

lemma sumCounts_countByKey (key : α → String) (xs : List α) :
    sumCounts (countByKey key xs) = xs.length := by
  suffices h : ∀ m, sumCounts (xs.foldl (fun m x => incrCount m (key x)) m) =
      sumCounts m + xs.length by
    simpa [countByKey, sumCounts] using h []
  induction xs with
  | nil => intro m; simp
  | cons x rest ih =>
    intro m
    simp only [List.foldl_cons, List.length_cons]
    rw [ih, sumCounts_incr]
    omega

lemma lookupCount_incr (m : List (String × Nat)) (k2 k : String) :
    lookupCount (incrCount m k2) k = lookupCount m k + (if k = k2 then 1 else 0) := by
  induction m with
  | nil =>
    show lookupCount [(k2, 1)] k = lookupCount [] k + _
    rw [lookupCount_cons]
    by_cases h : k = k2
    · rw [if_pos h.symm, if_pos h]; rfl
    · rw [if_neg (fun hc => h hc.symm), if_neg h]; rfl
  | cons p rest ih =>
    rcases p with ⟨k3, v⟩
    simp only [incrCount]
    split
    · rename_i hx
      have h32 : k3 = k2 := by simpa using hx
      rw [lookupCount_cons, lookupCount_cons]
      by_cases h : k3 = k
      · rw [if_pos h, if_pos h, if_pos (by rw [← h, h32])]
      · rw [if_neg h, if_neg h, if_neg (fun hc => h (h32.trans hc.symm))]
        omega
    · rename_i hx
      have h32 : ¬k3 = k2 := by simpa using hx
      rw [lookupCount_cons, lookupCount_cons, ih]
      by_cases h : k3 = k
      · rw [if_pos h, if_pos h, if_neg (fun hc => h32 (h.trans hc))]
        omega
      · rw [if_neg h, if_neg h]

lemma lookupCount_countByKey (key : α → String) (xs : List α) (k : String) :
    lookupCount (countByKey key xs) k = (xs.filter (fun x => key x == k)).length := by
  suffices h : ∀ m, lookupCount (xs.foldl (fun m x => incrCount m (key x)) m) k =
      lookupCount m k + (xs.filter (fun x => key x == k)).length by
    simpa [countByKey, lookupCount] using h []
  induction xs with
  | nil => intro m; simp
  | cons x rest ih =>
    intro m
    simp only [List.foldl_cons, List.filter_cons]
    rw [ih, lookupCount_incr]
    by_cases h : key x = k
    · simp [h]
      omega
    · simp [h, Ne.symm h]

/-- C8: the byState counts of the Stats Aggregator sum to the total
contact count, and on the empty contact set the average quality score
is 0 (no division by zero). -/
theorem C8_confirmed (groupBy : Option String) (cs : List Contact) :
    sumCounts (get_contact_stats_tool groupBy cs).byState =
      (get_contact_stats_tool groupBy cs).total ∧
    (get_contact_stats_tool groupBy []).avgQualityScore = 0 := by
  constructor
  · show sumCounts (countByKey Contact.contactState cs) = cs.length
    exact sumCounts_countByKey _ _
  · show pyRound1 (if (List.isEmpty []) then 0
      else ((([] : List Contact).map (fun c => (c.qualityScore : ℚ))).sum) / ((0 : Nat) : ℚ)) = 0
    norm_num [pyRound1, roundHalfEven]

/-- Three raw records with industries Fintech, Fintech, Travel. -/
def threeRecords : List Record :=
  [[("Industry", "Fintech")], [("Industry", "Fintech")], [("Industry", "Travel")]]

/-- The contacts built from `threeRecords`. -/
def threeContacts : List Contact :=
  threeRecords.filterMap transform_apollo_to_contact

/-- C9: the stats breakdown counts contacts by the stringified value of
the group-by field (a contact without that field counting under
"Unknown" via the dict-lookup default): whenever a breakdown is
produced, the count stored under any key equals the number of contacts
whose breakdown key is that key; on the 3-record Fintech/Fintech/Travel
set grouped by industry the breakdown is exactly
Fintech ↦ 2, Travel ↦ 1. -/
theorem C9_confirmed :
    (∀ (g : String) (cs : List Contact) (m : List (String × Nat)) (k : String),
      (get_contact_stats_tool (some g) cs).breakdown = some m →
      lookupCount m k = (cs.filter (fun c => breakdownKey c g == k)).length) ∧
    (get_contact_stats_tool (some "industry") threeContacts).breakdown =
      some [("Fintech", 2), ("Travel", 1)] := by
  constructor
  · intro g cs m k hm
    show lookupCount m k = _
    have hb : (get_contact_stats_tool (some g) cs).breakdown =
        (if g != "" then some (countByKey (fun c => breakdownKey c g) cs) else none) := rfl
    rw [hb] at hm
    split at hm
    · injection hm with hm2
      rw [← hm2]
      exact lookupCount_countByKey _ _ _
    · exact absurd hm (by simp)
  · decide

/-- C9 witness: on the three-record set the Fintech count reported in
the breakdown equals the number of contacts whose industry stringifies
to Fintech, namely 2. -/
theorem C9_witness :
    lookupCount [("Fintech", 2), ("Travel", 1)] "Fintech" =
      (threeContacts.filter (fun c => breakdownKey c "industry" == "Fintech")).length :=
  C9_confirmed.1 "industry" threeContacts [("Fintech", 2), ("Travel", 1)] "Fintech"
    C9_confirmed.2


lemma scoredContacts_mem_bounds (kw : List String) (cs : List Contact)
    (scored : List (Contact × Nat)) (hs : scoredContacts kw cs = .ok scored) :
    ∀ p ∈ scored, 1 ≤ p.2 ∧ p.2 ≤ kw.length := by
  induction cs generalizing scored with
  | nil =>
    injection hs with h
    subst h
    intro p hp
    simp at hp
  | cons c rest ih =>
    unfold scoredContacts at hs
    rcases hct : contactText c with e | text
    · rw [hct] at hs; exact absurd hs (by simp)
    · rw [hct] at hs
      rcases hrest : scoredContacts kw rest with e | tl
      · rw [hrest] at hs; exact absurd hs (by simp)
      · rw [hrest] at hs
        injection hs with h
        subst h
        intro p hp
        by_cases h0 : 0 < scoreText kw text
        · rw [if_pos h0] at hp
          rcases List.mem_cons.mp hp with h1 | h1
          · subst h1
            exact ⟨h0, List.countP_le_length _⟩
          · exact ih tl hrest p h1
        · rw [if_neg h0] at hp
          exact ih tl hrest p hp

lemma vsLe_trans (a b c : Contact × Nat) (h1 : vsLe a b = true) (h2 : vsLe b c = true) :
    vsLe a c = true := by
  simp only [vsLe, decide_eq_true_eq] at *
  omega

lemma vsLe_total (a b : Contact × Nat) : (vsLe a b || vsLe b a) = true := by
  simp only [vsLe, Bool.or_eq_true, decide_eq_true_eq]
  omega

lemma vsSort_pairwise (l : List (Contact × Nat)) :
    List.Pairwise (fun a b : Contact × Nat => b.2 ≤ a.2) (vsSort l) := by
  have h := List.sorted_mergeSort vsLe_trans vsLe_total l
  exact h.imp (fun hab => by simpa [vsLe] using hab)

lemma vsSort_filter_eq (l : List (Contact × Nat)) (pred : Contact × Nat → Bool)
    (hp : List.Pairwise (fun a b => vsLe a b = true) (l.filter pred)) :
    (vsSort l).filter pred = l.filter pred := by
  have hsub : (l.filter pred).Sublist (vsSort l) :=
    List.sublist_mergeSort vsLe_trans vsLe_total hp (List.filter_sublist l)
  have h2 : (l.filter pred).Sublist ((vsSort l).filter pred) := by
    have h0 := hsub.filter pred
    rwa [List.filter_filter, show (fun a => pred a && pred a) = pred from by
      funext a; rw [Bool.and_self]] at h0
  have hperm : ((vsSort l).filter pred).Perm (l.filter pred) :=
    (List.mergeSort_perm l vsLe).filter pred
  exact (h2.eq_of_length hperm.length_eq.symm).symm

lemma relScore_nonneg (kw : List String) (s : Nat) : 0 ≤ relScore kw s := by
  unfold relScore
  split
  · exact le_refl 0
  · exact div_nonneg (Nat.cast_nonneg s) (Nat.cast_nonneg _)

lemma kw_length_pos (kw : List String) (hne : ¬kw.isEmpty = true) :
    (0 : ℚ) < (kw.length : ℚ) := by
  have h : 0 < kw.length :=
    List.length_pos.mpr (by intro hk; subst hk; simp at hne)
  exact_mod_cast h

lemma relScore_le_one (kw : List String) (s : Nat) (h : s ≤ kw.length) :
    relScore kw s ≤ 1 := by
  unfold relScore
  split
  · exact zero_le_one
  · rename_i hne
    rw [div_le_one (kw_length_pos kw hne)]
    exact_mod_cast h

lemma relScore_mono (kw : List String) {a b : Nat} (h : b ≤ a) :
    relScore kw b ≤ relScore kw a := by
  unfold relScore
  split
  · exact le_refl 0
  · rename_i hne
    rw [div_le_div_iff_of_pos_right (kw_length_pos kw hne)]
    exact_mod_cast h

/-- C10 counterexample input: the "all defaults" contact, whose title,
companyName and industry are `None`, making `' '.join` raise. -/
theorem C10_counterexample :
    extractKeywords "hello" = [] ∧
    vector_search_contacts_tool "hello" 20 none none none [emptyContact] =
      .error "TypeError" :=
  ⟨rfl, rfl⟩

/-- C10 (amended): whenever the Relevance Ranker returns a result (it
raises TypeError instead when some contact's title, companyName or
industry is None), the result sequence is the projection of the stable
descending sort of the positively-scored contacts, filtered and
truncated: it is sorted by descending relevanceScore, every
relevanceScore lies in [0,1], a query containing no vocabulary keyword
yields extractedKeywords = [] and an empty result sequence, and within
each score class the returned order is a subsequence of the source
(repository) order. -/
theorem C10_corrected (query : String) (top_k : Nat)
    (minQ : Option Int) (isEx : Option Bool) (country : Option String)
    (cs : List Contact) (scored : List (Contact × Nat)) (r : VSResult)
    (hs : scoredContacts (extractKeywords query) cs = .ok scored)
    (h : vector_search_contacts_tool query top_k minQ isEx country cs = .ok r) :
    r.extractedKeywords = extractKeywords query ∧
    r.contacts = (vsLimited top_k minQ isEx country scored).map
      (fun p => (minimalContact p.1, relScore (extractKeywords query) p.2)) ∧
    List.Pairwise (fun a b : MinContact × ℚ => b.2 ≤ a.2) r.contacts ∧
    (∀ e ∈ r.contacts, 0 ≤ e.2 ∧ e.2 ≤ 1) ∧
    (extractKeywords query = [] → r.extractedKeywords = [] ∧ r.contacts = []) ∧
    (∀ s : Nat, ((vsLimited top_k minQ isEx country scored).filter
        (fun p => p.2 == s)).Sublist (scored.filter (fun p => p.2 == s))) := by
  unfold vector_search_contacts_tool at h
  rw [hs] at h
  injection h with hr
  subst hr
  have hsubsort : (vsLimited top_k minQ isEx country scored).Sublist (vsSort scored) :=
    (List.take_sublist _ _).trans (List.filter_sublist _)
  have hpl : List.Pairwise (fun a b : Contact × Nat => b.2 ≤ a.2)
      (vsLimited top_k minQ isEx country scored) :=
    List.Pairwise.sublist hsubsort (vsSort_pairwise scored)
  refine ⟨rfl, rfl, ?_, ?_, ?_, ?_⟩
  · rw [List.pairwise_map]
    exact hpl.imp (fun hab => relScore_mono _ hab)
  · intro e he
    rcases List.mem_map.mp he with ⟨p, hp, rfl⟩
    have hmem : p ∈ scored := by
      have h1 : p ∈ vsSort scored := hsubsort.subset hp
      exact ((List.mergeSort_perm scored vsLe).mem_iff).mp h1
    have hb := scoredContacts_mem_bounds _ _ _ hs p hmem
    exact ⟨relScore_nonneg _ _, relScore_le_one _ _ hb.2⟩
  · intro hkw
    have hempty : scored = [] := by
      rw [List.eq_nil_iff_forall_not_mem]
      intro p hp
      have hb := scoredContacts_mem_bounds _ _ _ hs p hp
      rw [hkw] at hb
      simp at hb
      omega
    subst hempty
    refine ⟨hkw, ?_⟩
    show List.map _ (vsLimited top_k minQ isEx country []) = []
    simp [vsLimited, vsSort, List.mergeSort_nil]
  · intro s
    have hps : List.Pairwise (fun a b => vsLe a b = true)
        (scored.filter (fun p => p.2 == s)) := by
      have hall : ∀ p ∈ scored.filter (fun p : Contact × Nat => p.2 == s), p.2 = s :=
        fun p hp => by simpa using (List.mem_filter.mp hp).2
      apply List.pairwise_of_forall_mem_list
      intro a ha b hb
      simp [vsLe, hall a ha, hall b hb]
    have h1 : ((vsLimited top_k minQ isEx country scored).filter
        (fun p => p.2 == s)).Sublist
        (((vsSort scored).filter (fun p => vsKeep minQ isEx country p.1)).filter
          (fun p => p.2 == s)) :=
      (List.take_sublist _ _).filter _
    have h2 : (((vsSort scored).filter (fun p => vsKeep minQ isEx country p.1)).filter
        (fun p => p.2 == s)).Sublist ((vsSort scored).filter (fun p => p.2 == s)) :=
      (List.filter_sublist _).filter _
    rw [vsSort_filter_eq scored _ hps] at h2
    exact h1.trans h2

/-- Contact with the three text fields present, matching the fintech
vocabulary keyword. -/
def vsDemoContact : Contact :=
  { emptyContact with
      title := some "CEO"
      companyName := some "Acme"
      industry := some "Fintech" }

/-- Scored list produced by the demo search. -/
def vsDemoScored : List (Contact × Nat) := [(vsDemoContact, 1)]

/-- Result of the demo search, written through the pipeline stages. -/
def vsDemoResult : VSResult :=
  { contacts := (vsLimited 20 none none none vsDemoScored).map
      (fun p => (minimalContact p.1, relScore (extractKeywords "fintech") p.2))
    totalMatched := (vsLimited 20 none none none vsDemoScored).length
    searchQuery := "fintech"
    extractedKeywords := extractKeywords "fintech" }

/-- C10 witness: the query "fintech" over the one well-formed fintech
contact succeeds, echoes its extracted keywords, and returns a
descending-sorted result sequence. -/
theorem C10_witness :
    vsDemoResult.extractedKeywords = extractKeywords "fintech" ∧
    List.Pairwise (fun a b : MinContact × ℚ => b.2 ≤ a.2) vsDemoResult.contacts :=
  ⟨(C10_corrected "fintech" 20 none none none [vsDemoContact] vsDemoScored
      vsDemoResult rfl rfl).1,
   (C10_corrected "fintech" 20 none none none [vsDemoContact] vsDemoScored
      vsDemoResult rfl rfl).2.2.1⟩
